import Mathlib

/-!
A shallow embedding of the rag-d repository (src/rag/views.py, the routed
fixture-strategy module, and src/rag/copy.py, the live/database-strategy
variant) together with proofs about the behaviour its specification claims.

Modelling conventions:
* Python's `random` module is modelled by an explicit stream of natural
  numbers `Rng`; `random.randint(a, b)` maps a raw draw into `[a, b]` by
  remainder, `random.uniform(a, b)` maps it into the rational interval
  `[a, b]`, `random.choice` / `random.sample` select by index.
* Python floats are modelled by rationals; `round(x, 2)` is rounding to the
  nearest multiple of `1/100` (the tie-breaking rule is irrelevant to every
  property proved below).
* Timestamps (`datetime.now() - timedelta(days=d)`) are modelled by the
  integer day offset `d`.
* File and database input/output and the FAISS/LLM collaborators are
  modelled by an explicit environment `Env` and state `St`; a Python
  exception raised by a collaborator is modelled by the corresponding
  failure flag of the environment.
-/

/-- A deterministic stream of raw random draws: the `i`-th draw is `g i`. -/
structure Rng where
  g : Nat → Nat
  i : Nat

def Rng.next (r : Rng) : Nat × Rng :=
  (r.g r.i, ⟨r.g, r.i + 1⟩)

/-- Model of `random.randint(a, b)`: an integer in `[a, b]` (for `a ≤ b`). -/
def randint (a b : Nat) (r : Rng) : Nat × Rng :=
  let (n, r') := r.next
  (a + n % (b + 1 - a), r')

/-- Model of `random.uniform(a, b)`: a rational in `[a, b]` (for `a ≤ b`). -/
def uniformQ (a b : ℚ) (r : Rng) : ℚ × Rng :=
  let (n, r') := r.next
  (a + (b - a) * ((n % 1000001 : ℕ) : ℚ) / 1000000, r')

/-- Model of Python `round(x, ndigits)` with `m = 10 ^ ndigits`: round to the
nearest multiple of `1 / m`. -/
def pyRound (m : ℚ) (q : ℚ) : ℚ :=
  ((round (q * m) : ℤ) : ℚ) / m

/-- `round(x, 2)`. -/
def round2 (q : ℚ) : ℚ := pyRound 100 q

/-- `round(x, 1)`. -/
def round1 (q : ℚ) : ℚ := pyRound 10 q

/-- Model of `random.choice(l)` for non-empty `l` (`d` is a dummy default). -/
def choice (l : List α) (d : α) (r : Rng) : α × Rng :=
  let (n, r') := r.next
  (l.getD (n % l.length) d, r')

/-- Model of `random.sample(pop, k)`: `k` distinct elements, drawn by
repeatedly removing a position from the remaining pool. -/
def sample : List String → Nat → Rng → List String × Rng
  | _, 0, r => ([], r)
  | pop, k + 1, r =>
    if pop.isEmpty then ([], r)
    else
      let (n, r1) := r.next
      let idx := n % pop.length
      let x := pop.getD idx ""
      let (rest, r2) := sample (pop.eraseIdx idx) k r1
      (x :: rest, r2)

/-- A generated product record (views.py lines 80-92). -/
structure Product where
  id : Nat
  name : String
  description : String
  category : String
  brand : String
  price : ℚ
  rating : ℚ
  stock_quantity : Nat
  is_active : Bool
  created_days : Nat
  tags : List String
deriving DecidableEq

/-- A generated review record (views.py lines 97-117). -/
structure Review where
  id : Nat
  product_id : Nat
  product_name : String
  rating : Nat
  review_text : String
  reviewer_name : String
  created_days : Nat
  verified_purchase : Bool
deriving DecidableEq

/-- A generated order line item (views.py lines 132-138). -/
structure OrderItem where
  product_id : Nat
  product_name : String
  quantity : Nat
  price : ℚ
  total : ℚ
deriving DecidableEq

/-- A generated order (views.py lines 142-149). -/
structure Order where
  id : Nat
  user_id : Nat
  items : List OrderItem
  total_amount : ℚ
  status : String
  created_days : Nat
deriving DecidableEq

/-- The complete snapshot written to `rag/ecommerce_data.json`
(views.py lines 153-161). -/
structure EcommerceData where
  products : List Product
  reviews : List Review
  orders : List Order
  generated_at : Nat
  total_products : Nat
  total_reviews : Nat
  total_orders : Nat
deriving DecidableEq

def categories_pool : List String :=
  ["Electronics", "Clothing", "Home & Garden", "Sports & Outdoors",
   "Books", "Health & Beauty", "Toys & Games", "Automotive",
   "Jewelry", "Food & Beverages", "Pet Supplies", "Office Supplies"]

def brands_pool : List String :=
  ["TechPro", "StyleMax", "ComfortHome", "ActiveLife", "SmartChoice",
   "PremiumBrand", "EcoFriendly", "BudgetBest", "LuxuryLine", "QuickFix",
   "MegaBrand", "TopTier", "ValuePlus", "EliteChoice", "ProGear"]

/-- `product_templates.get(category, ["Generic Product"])`. -/
def product_templates (c : String) : List String :=
  if c = "Electronics" then
    ["Wireless Bluetooth Headphones", "Smart TV", "Laptop Computer",
     "Smartphone", "Tablet", "Gaming Console", "Smart Watch",
     "Wireless Speaker", "Camera", "Power Bank", "Router", "Monitor"]
  else if c = "Clothing" then
    ["T-Shirt", "Jeans", "Dress", "Jacket", "Sneakers", "Hoodie",
     "Shorts", "Sweater", "Boots", "Skirt", "Blouse", "Pants"]
  else if c = "Home & Garden" then
    ["Coffee Maker", "Vacuum Cleaner", "Air Purifier", "Desk Lamp",
     "Garden Hose", "Tool Set", "Bedding Set", "Dining Table",
     "Plant Pot", "Wall Clock", "Storage Box", "Kitchen Scale"]
  else if c = "Sports & Outdoors" then
    ["Yoga Mat", "Running Shoes", "Bicycle", "Camping Tent",
     "Fitness Tracker", "Water Bottle", "Dumbbells", "Backpack",
     "Soccer Ball", "Tennis Racket", "Hiking Boots", "Swim Goggles"]
  else if c = "Books" then
    ["Fiction Novel", "Self-Help Book", "Cookbook", "Biography",
     "Science Book", "History Book", "Art Book", "Travel Guide",
     "Children's Book", "Poetry Collection", "Technical Manual", "Dictionary"]
  else if c = "Health & Beauty" then
    ["Skincare Set", "Hair Dryer", "Electric Toothbrush", "Perfume",
     "Makeup Kit", "Vitamins", "Face Mask", "Shampoo", "Moisturizer",
     "Nail Polish", "Sunscreen", "Body Lotion"]
  else ["Generic Product"]

/-- The fixed 6-tag vocabulary sampled for `tags` (views.py line 91). -/
def tag_pool : List String :=
  ["bestseller", "eco-friendly", "premium", "budget", "new-arrival", "sale"]

/-- The list passed to `random.choice` for `is_active` (views.py line 89):
three `True`, one `False`. -/
def active_pool : List Bool := [true, true, true, false]

/-- The fixed 10-sentence review text pool (views.py lines 102-113). -/
def review_pool : List String :=
  ["Great product! Highly recommended.",
   "Good value for money. Works as expected.",
   "Excellent quality and fast shipping.",
   "Not bad, but could be better.",
   "Amazing product! Exceeded my expectations.",
   "Decent product for the price.",
   "Love it! Will buy again.",
   "Good build quality and design.",
   "Fair product, nothing special.",
   "Outstanding! Worth every penny."]

def statuses_pool : List String :=
  ["pending", "processing", "shipped", "delivered", "cancelled"]

/-- One iteration of the product loop body (views.py lines 74-93). -/
def genProduct (i : Nat) (r : Rng) : Product × Rng :=
  let c := choice categories_pool "" r
  let b := choice brands_pool "" c.2
  let pn := choice (product_templates c.1) "" b.2
  let pr := uniformQ (999 / 100) (99999 / 100) pn.2
  let ra := uniformQ 3 5 pr.2
  let st := randint 0 500 ra.2
  let ac := choice active_pool true st.2
  let cd := randint 1 365 ac.2
  let tk := randint 1 3 cd.2
  let tg := sample tag_pool tk.1 tk.2
  (⟨i, b.1 ++ " " ++ pn.1,
    "High-quality " ++ pn.1.toLower ++ " from " ++ b.1 ++
      ". Perfect for everyday use with excellent performance and durability.",
    c.1, b.1, round2 pr.1, round1 ra.1, st.1, ac.1, cd.1, tg.1⟩, tg.2)

/-- One review record (views.py lines 97-117); `rid` is
`len(reviews_data) + 1` at creation time. -/
def genReview (pid : Nat) (pname : String) (rid : Nat) (r : Rng) : Review × Rng :=
  let ra := randint 1 5 r
  let tx := choice review_pool "" ra.2
  let cu := randint 1000 9999 tx.2
  let cd := randint 1 180 cu.2
  let vf := choice [true, false] true cd.2
  (⟨rid, pid, pname, ra.1, tx.1, "Customer" ++ toString cu.1, cd.1, vf.1⟩, vf.2)

/-- The inner review loop for one product: `k` reviews with sequential ids
starting at `start + 1`. -/
def genReviewsFor (pid : Nat) (pname : String) : Nat → Nat → Rng → List Review × Rng
  | _, 0, r => ([], r)
  | start, k + 1, r =>
    let rv := genReview pid pname (start + 1) r
    let rest := genReviewsFor pid pname (start + 1) k rv.2
    (rv.1 :: rest.1, rest.2)

/-- The main product loop (views.py lines 74-118): `n` remaining products,
next id `i`, accumulated products `ps` and reviews `rs`. -/
def genProductsLoop : Nat → Nat → List Product → List Review → Rng →
    List Product × List Review × Rng
  | 0, _, ps, rs, r => (ps, rs, r)
  | n + 1, i, ps, rs, r =>
    let p := genProduct i r
    let u := randint 2 6 p.2
    let rvs := genReviewsFor i p.1.name rs.length (u.1 - 1) u.2
    genProductsLoop n (i + 1) (ps ++ [p.1]) (rs ++ rvs.1) rvs.2

/-- The order line-item loop (views.py lines 127-140), also accumulating
`total_amount`. -/
def genItemsLoop (products : List Product) (dp : Product) :
    Nat → Rng → List OrderItem × ℚ × Rng
  | 0, r => ([], 0, r)
  | n + 1, r =>
    let p := choice products dp r
    let q := randint 1 3 p.2
    let it : OrderItem :=
      ⟨p.1.id, p.1.name, q.1, p.1.price, round2 ((q.1 : ℚ) * p.1.price)⟩
    let rest := genItemsLoop products dp n q.2
    (it :: rest.1, it.total + rest.2.1, rest.2.2)

def defaultProduct : Product := ⟨0, "", "", "", "", 0, 0, 0, false, 0, []⟩

/-- One order (views.py lines 122-150). -/
def genOrder (oid : Nat) (products : List Product) (r : Rng) : Order × Rng :=
  let n := randint 1 5 r
  let its := genItemsLoop products defaultProduct n.1 n.2
  let uid := randint 1 100 its.2.2
  let st := choice statuses_pool "" uid.2
  let cd := randint 1 30 st.2
  (⟨oid, uid.1, its.1, round2 its.2.1, st.1, cd.1⟩, cd.2)

def genOrdersLoop (products : List Product) : Nat → Nat → List Order → Rng →
    List Order × Rng
  | 0, _, os, r => (os, r)
  | n + 1, oid, os, r =>
    let o := genOrder oid products r
    genOrdersLoop products n (oid + 1) (os ++ [o.1]) o.2

/-- `generate_sample_ecommerce_data` (views.py lines 23-168): builds the full
snapshot from the random stream `r`; `now` is the generation timestamp. -/
def generate_sample_ecommerce_data (now : Nat) (r : Rng) : EcommerceData × Rng :=
  let pr := genProductsLoop 1000 1 [] [] r
  let os := genOrdersLoop pr.1 200 1 [] pr.2.2
  (⟨pr.1, pr.2.1, os.1, now, pr.1.length, pr.2.1.length, os.1.length⟩, os.2)

/-- The whitespace test used by Python `str.strip()`. -/
def wsb (c : Char) : Bool := c.isWhitespace

/-- Python `str.strip()` on the underlying character list: drop whitespace
from the front, then from the back. -/
def pyStripList (l : List Char) : List Char :=
  ((l.dropWhile wsb).reverse.dropWhile wsb).reverse

/-- Python `str.strip()`. -/
def pyStrip (s : String) : String := ⟨pyStripList s.data⟩

/-- A metadata value (Python values are strings, ints, floats or bools). -/
inductive MetaVal where
  | s (v : String)
  | n (v : Nat)
  | q (v : ℚ)
  | b (v : Bool)
deriving DecidableEq

/-- A LangChain `Document`: page content plus a metadata mapping, modelled
as an association list in insertion order. -/
structure Doc where
  page_content : String
  metadata : List (String × MetaVal)
deriving DecidableEq

/-- The product rendering template (views.py lines 186-197); dates are
rendered from the modelled day offset. -/
def productContent (p : Product) : String :=
  "\n            Product: " ++ p.name ++
  "\n            Category: " ++ p.category ++
  "\n            Brand: " ++ p.brand ++
  "\n            Price: $" ++ toString p.price ++
  "\n            Rating: " ++ toString p.rating ++ "/5.0" ++
  "\n            Description: " ++ p.description ++
  "\n            Stock: " ++ toString p.stock_quantity ++ " units available" ++
  "\n            Status: " ++ (if p.is_active then "Active" else "Inactive") ++
  "\n            Tags: " ++ String.intercalate ", " p.tags ++
  "\n            Added: " ++ toString p.created_days ++
  "\n            "

/-- A product chunk (views.py lines 199-209). -/
def productDoc (p : Product) : Doc :=
  ⟨pyStrip (productContent p),
   [("source", .s "products"), ("id", .n p.id), ("category", .s p.category),
    ("brand", .s p.brand), ("price", .q p.price), ("rating", .q p.rating)]⟩

/-- The review rendering template (views.py lines 214-221). -/
def reviewContent (rv : Review) : String :=
  "\n            Product Review: " ++ rv.product_name ++
  "\n            Rating: " ++ toString rv.rating ++ "/5 stars" ++
  "\n            Review: " ++ rv.review_text ++
  "\n            Reviewer: " ++ rv.reviewer_name ++
  "\n            Verified Purchase: " ++ (if rv.verified_purchase then "Yes" else "No") ++
  "\n            Date: " ++ toString rv.created_days ++
  "\n            "

/-- A review chunk (views.py lines 223-231). -/
def reviewDoc (rv : Review) : Doc :=
  ⟨pyStrip (reviewContent rv),
   [("source", .s "reviews"), ("product_id", .n rv.product_id),
    ("rating", .n rv.rating), ("verified", .b rv.verified_purchase)]⟩

/-- The order-item rendering template (views.py lines 237-246). -/
def orderItemContent (o : Order) (it : OrderItem) : String :=
  "\n                Recent Order Information:" ++
  "\n                Product: " ++ it.product_name ++
  "\n                Quantity Ordered: " ++ toString it.quantity ++
  "\n                Price: $" ++ toString it.price ++ " each" ++
  "\n                Order Total: $" ++ toString it.total ++
  "\n                Order Status: " ++ o.status ++
  "\n                Order Date: " ++ toString o.created_days ++
  "\n                Customer ID: " ++ toString o.user_id ++
  "\n                "

/-- An order-item chunk (views.py lines 248-256). -/
def orderItemDoc (o : Order) (it : OrderItem) : Doc :=
  ⟨pyStrip (orderItemContent o it),
   [("source", .s "orders"), ("order_id", .n o.id),
    ("product_id", .n it.product_id), ("status", .s o.status)]⟩

/-- The document list synthesized from a loaded snapshot
(views.py lines 182-260): products, then reviews, then one chunk per
order line item. -/
def docsOf (d : EcommerceData) : List Doc :=
  d.products.map productDoc ++ d.reviews.map reviewDoc ++
  d.orders.flatMap (fun o => o.items.map (orderItemDoc o))

/-- A row of the live-strategy `products` query (copy.py lines 40-53). -/
structure DbProductRow where
  id : Nat
  name : String
  description : String
  price : ℚ
  category : String
  stock_quantity : Nat
  brand : String
  rating : ℚ
deriving DecidableEq

/-- A row of the live-strategy `categories` query (copy.py lines 55-63). -/
structure DbCategoryRow where
  id : Nat
  name : String
  description : String
  parent_category : String
deriving DecidableEq

/-- A row of the live-strategy `reviews` query (copy.py lines 65-78). -/
structure DbReviewRow where
  id : Nat
  product_id : Nat
  product_name : String
  rating : Nat
  review_text : String
  created_at : String
deriving DecidableEq

/-- A row of the live-strategy joined `orders` query (copy.py lines 80-95). -/
structure DbOrderRow where
  id : Nat
  user_id : Nat
  total_amount : ℚ
  status : String
  created_at : String
  product_id : Nat
  product_name : String
  quantity : Nat
  price : ℚ
deriving DecidableEq

/-- The result of the four live-strategy queries. -/
structure DbData where
  products : List DbProductRow
  categories : List DbCategoryRow
  reviews : List DbReviewRow
  orders : List DbOrderRow
deriving DecidableEq

/-- The live-strategy product template (copy.py lines 106-114); note the
rendered text is NOT stripped before the document is created. -/
def copyProductContent (row : DbProductRow) : String :=
  "\n                    Product: " ++ row.name ++
  "\n                    Description: " ++ row.description ++
  "\n                    Price: $" ++ toString row.price ++
  "\n                    Category: " ++ row.category ++
  "\n                    Brand: " ++ row.brand ++
  "\n                    Rating: " ++ toString row.rating ++ "/5" ++
  "\n                    Stock: " ++ toString row.stock_quantity ++ " units" ++
  "\n                    "

/-- A live-strategy product chunk (copy.py lines 142-149): unstripped text,
metadata `source`, `id`, then every remaining row field. -/
def copyProductDoc (row : DbProductRow) : Doc :=
  ⟨copyProductContent row,
   [("source", .s "products"), ("id", .n row.id), ("name", .s row.name),
    ("description", .s row.description), ("price", .q row.price),
    ("category", .s row.category), ("stock_quantity", .n row.stock_quantity),
    ("brand", .s row.brand), ("rating", .q row.rating)]⟩

/-- The live-strategy category template (copy.py lines 117-121). -/
def copyCategoryContent (row : DbCategoryRow) : String :=
  "\n                    Category: " ++ row.name ++
  "\n                    Description: " ++ row.description ++
  "\n                    Parent Category: " ++ row.parent_category ++
  "\n                    "

def copyCategoryDoc (row : DbCategoryRow) : Doc :=
  ⟨copyCategoryContent row,
   [("source", .s "categories"), ("id", .n row.id), ("name", .s row.name),
    ("description", .s row.description),
    ("parent_category", .s row.parent_category)]⟩

/-- The live-strategy review template (copy.py lines 124-129). -/
def copyReviewContent (row : DbReviewRow) : String :=
  "\n                    Product Review for: " ++ row.product_name ++
  "\n                    Rating: " ++ toString row.rating ++ "/5" ++
  "\n                    Review: " ++ row.review_text ++
  "\n                    Date: " ++ row.created_at ++
  "\n                    "

def copyReviewDoc (row : DbReviewRow) : Doc :=
  ⟨copyReviewContent row,
   [("source", .s "reviews"), ("id", .n row.id),
    ("product_id", .n row.product_id), ("product_name", .s row.product_name),
    ("rating", .n row.rating), ("review_text", .s row.review_text),
    ("created_at", .s row.created_at)]⟩

/-- The live-strategy order template (copy.py lines 132-139). -/
def copyOrderContent (row : DbOrderRow) : String :=
  "\n                    Order Information:" ++
  "\n                    Product: " ++ row.product_name ++
  "\n                    Quantity: " ++ toString row.quantity ++
  "\n                    Price: $" ++ toString row.price ++
  "\n                    Order Status: " ++ row.status ++
  "\n                    Order Date: " ++ row.created_at ++
  "\n                    "

def copyOrderDoc (row : DbOrderRow) : Doc :=
  ⟨copyOrderContent row,
   [("source", .s "orders"), ("id", .n row.id), ("user_id", .n row.user_id),
    ("total_amount", .q row.total_amount), ("status", .s row.status),
    ("created_at", .s row.created_at), ("product_id", .n row.product_id),
    ("product_name", .s row.product_name), ("quantity", .n row.quantity),
    ("price", .q row.price)]⟩

/-- The answer plus retrieved context returned by an invoked retrieval
chain (`result['answer']`, `result['context']`). -/
structure ChainResult where
  answer : String
  context : List Doc
deriving DecidableEq

/-- A built retrieval chain: the indexed documents and the retrieval
constant `k` passed to `as_retriever(search_kwargs={"k": ...})`. -/
structure Chain where
  docs : List Doc
  k : Nat
deriving DecidableEq

/-- The external collaborators and failure modes, made explicit.
`genOk` models whether `generate_sample_ecommerce_data`'s file write
succeeds, `loadOk` whether the snapshot read/parse succeeds, `collabOk`
whether the embedding/FAISS build succeeds, `dbData` the rows returned by
the live database (`none` = connection or query failure), `retrieve` the
vector store's similarity search and `llm` the completion collaborator. -/
structure Env where
  now : Nat
  genOk : Bool
  loadOk : Bool
  collabOk : Bool
  dbData : Option DbData
  retrieve : List Doc → String → List Doc
  llm : String → Except String String

/-- Invoking a retrieval chain: retrieve at most `k` documents, delegate
completion to the LLM; any collaborator failure is an `Except.error`. -/
def runChain (env : Env) (c : Chain) (q : String) : Except String ChainResult :=
  match env.llm q with
  | .ok a => .ok ⟨a, (env.retrieve c.docs q).take c.k⟩
  | .error e => .error e

/-- The process-wide state of views.py: the global `rag_chain`, the snapshot
file, the random stream, and instrumentation counters recording how many
times the chain and the index-build collaborator were invoked. -/
structure St where
  rag_chain : Option Chain
  fs : Option EcommerceData
  rng : Rng
  chainCalls : Nat
  collabCalls : Nat

/-- `load_ecommerce_data_from_json` (views.py lines 170-264): generate the
snapshot if the file is absent, read it, synthesize documents; any failure
is absorbed and yields the empty list. -/
def load_ecommerce_data_from_json (env : Env) (st : St) : List Doc × St :=
  match st.fs with
  | none =>
    if env.genOk then
      let gen := generate_sample_ecommerce_data env.now st.rng
      let st1 : St := {st with fs := some gen.1, rng := gen.2}
      if env.loadOk then (docsOf gen.1, st1) else ([], st1)
    else ([], st)
  | some d => if env.loadOk then (docsOf d, st) else ([], st)

/-- `setup_rag_chain` (views.py lines 266-316): return `none` on an empty
document set without invoking the collaborator; otherwise invoke it and
absorb any failure into `none`. -/
def setup_rag_chain (env : Env) (st : St) : Option Chain × St :=
  let ld := load_ecommerce_data_from_json env st
  if ld.1.isEmpty then (none, ld.2)
  else
    let st2 : St := {ld.2 with collabCalls := ld.2.collabCalls + 1}
    if env.collabOk then (some ⟨ld.1, 8⟩, st2) else (none, st2)

/-- `initialize_rag` (views.py lines 321-325). -/
def init_rag (env : Env) (st : St) : Bool × St :=
  let su := setup_rag_chain env st
  (su.1.isSome, {su.2 with rag_chain := su.1})

/-- `refresh_rag_data` (views.py lines 327-338): regenerate the snapshot and
rebuild the chain; if the regeneration itself raises, the exception handler
returns `False` leaving `rag_chain` untouched. -/
def refresh_rag_data (env : Env) (st : St) : Bool × St :=
  if env.genOk then
    let gen := generate_sample_ecommerce_data env.now st.rng
    let st1 : St := {st with fs := some gen.1, rng := gen.2}
    let su := setup_rag_chain env st1
    (su.1.isSome, {su.2 with rag_chain := su.1})
  else (false, st)

def initFailMsg : String := "Failed to initialize the RAG system. Please check the logs."

def refreshOkMsg : String := "✅ Successfully generated new sample data and refreshed the system!"

def refreshFailMsg : String := "❌ Failed to refresh data. Please check the logs."

def invalidQueryMsg : String := "Please enter a valid query."

def queryErrPre : String := "An error occurred while processing your query: "

/-- An inbound request: `request.method == 'POST'`, `action` (form default
`'query'`) and `query` (form default `''`). -/
structure Req where
  isPost : Bool
  action : String
  query : String

/-- The rendered template context of views.py (`response`, `error`, and the
snapshot stats shown on the page). -/
structure ViewOut where
  response : Option String
  error : Option String
  stats : Option (Nat × Nat × Nat × Nat)
deriving DecidableEq

/-- The stats block (views.py lines 373-385); a read failure is swallowed. -/
def statsOf (env : Env) (st : St) : Option (Nat × Nat × Nat × Nat) :=
  match st.fs with
  | some d =>
    if env.loadOk then some (d.total_products, d.total_reviews, d.total_orders, d.generated_at)
    else none
  | none => none

/-- `rag_view` (views.py lines 340-391), the routed request dispatcher. -/
def rag_view (env : Env) (st : St) (req : Req) : ViewOut × St :=
  let ini : St × Option String :=
    match st.rag_chain with
    | none =>
      let iz := init_rag env st
      (iz.2, if iz.1 then none else some initFailMsg)
    | some _ => (st, none)
  let st1 := ini.1
  let out : Option String × Option String × St :=
    if req.isPost then
      if req.action = "refresh" then
        let rf := refresh_rag_data env st1
        if rf.1 then (some refreshOkMsg, ini.2, rf.2)
        else (none, some refreshFailMsg, rf.2)
      else if req.action = "query" then
        let q := pyStrip req.query
        match st1.rag_chain with
        | some c =>
          if q ≠ "" then
            let st2 : St := {st1 with chainCalls := st1.chainCalls + 1}
            match runChain env c q with
            | .ok res => (some res.answer, ini.2, st2)
            | .error e => (none, some (queryErrPre ++ e), st2)
          else (none, some invalidQueryMsg, st1)
        | none => (none, some invalidQueryMsg, st1)
      else (none, ini.2, st1)
    else (none, ini.2, st1)
  (⟨out.1, out.2.1, statsOf env out.2.2⟩, out.2.2)

/-- The process-wide state of copy.py (no snapshot file: data comes from the
database on every load). -/
structure CSt where
  rag_chain : Option Chain
  chainCalls : Nat
  collabCalls : Nat
deriving DecidableEq

/-- `load_ecommerce_data` (copy.py lines 32-157): rows of the four queries
become unstripped documents; a connection/query failure is absorbed and
yields the empty list. -/
def copy_load_ecommerce_data (env : Env) : List Doc :=
  match env.dbData with
  | none => []
  | some db =>
    db.products.map copyProductDoc ++ db.categories.map copyCategoryDoc ++
    db.reviews.map copyReviewDoc ++ db.orders.map copyOrderDoc

/-- `setup_rag_chain` (copy.py lines 159-205); the retriever uses `k = 5`. -/
def copy_setup_rag_chain (env : Env) (st : CSt) : Option Chain × CSt :=
  let docs := copy_load_ecommerce_data env
  if docs.isEmpty then (none, st)
  else
    let st2 : CSt := {st with collabCalls := st.collabCalls + 1}
    if env.collabOk then (some ⟨docs, 5⟩, st2) else (none, st2)

/-- `initialize_rag` (copy.py lines 210-213): assigns the global and
returns nothing. -/
def copy_init_rag (env : Env) (st : CSt) : CSt :=
  let su := copy_setup_rag_chain env st
  {su.2 with rag_chain := su.1}

/-- `refresh_rag_data` (copy.py lines 215-219). -/
def copy_refresh_rag_data (env : Env) (st : CSt) : Bool × CSt :=
  let su := copy_setup_rag_chain env st
  (su.1.isSome, {su.2 with rag_chain := su.1})

def copyRefreshOkMsg : String := "Data refreshed successfully from database!"

def copyRefreshFailMsg : String := "Failed to refresh data from database."

def copyInvalidMsg : String := "Please enter a query and ensure the system is properly initialized."

def copyQueryErrPre : String := "An error occurred: "

/-- The rendered template context of copy.py (`response` and `error`). -/
structure CViewOut where
  response : Option String
  error : Option String
deriving DecidableEq

/-- `doc.metadata.get(key, default)`. -/
def metaGet (d : Doc) (key : String) (dflt : MetaVal) : MetaVal :=
  match d.metadata.lookup key with
  | some v => v
  | none => dflt

/-- The `sources` list computed inside copy.py's query branch
(lines 250-257): the `(source, id)` metadata of each retrieved chunk, in
retrieval order.  The Python code stores it in a local variable and never
renders or returns it. -/
def copySources (res : ChainResult) : List (MetaVal × MetaVal) :=
  res.context.map (fun d => (metaGet d "source" (.s "Unknown"), metaGet d "id" (.s "N/A")))

/-- `rag_view` (copy.py lines 221-267): note the query is NOT stripped
before the `if query and rag_chain:` truthiness test. -/
def copy_rag_view (env : Env) (st : CSt) (req : Req) : CViewOut × CSt :=
  let st1 : CSt :=
    match st.rag_chain with
    | none => copy_init_rag env st
    | some _ => st
  let out : Option String × Option String × CSt :=
    if req.isPost then
      if req.action = "refresh" then
        let rf := copy_refresh_rag_data env st1
        if rf.1 then (some copyRefreshOkMsg, none, rf.2)
        else (none, some copyRefreshFailMsg, rf.2)
      else if req.action = "query" then
        match st1.rag_chain with
        | some c =>
          if req.query ≠ "" then
            let st2 : CSt := {st1 with chainCalls := st1.chainCalls + 1}
            match runChain env c req.query with
            | .ok res => (some res.answer, none, st2)
            | .error e => (none, some (copyQueryErrPre ++ e), st2)
          else (none, some copyInvalidMsg, st1)
        | none => (none, some copyInvalidMsg, st1)
      else (none, none, st1)
    else (none, none, st1)
  (⟨out.1, out.2.1⟩, out.2.2)

theorem randint_mem {a b : Nat} (h : a ≤ b) (r : Rng) :
    a ≤ (randint a b r).1 ∧ (randint a b r).1 ≤ b := by
  simp only [randint, Rng.next]
  have h2 : r.g r.i % (b + 1 - a) < b + 1 - a := Nat.mod_lt _ (by omega)
  omega

theorem uniformQ_mem {a b : ℚ} (h : a ≤ b) (r : Rng) :
    a ≤ (uniformQ a b r).1 ∧ (uniformQ a b r).1 ≤ b := by
  simp only [uniformQ, Rng.next]
  have h0 : (0 : ℚ) ≤ ((r.g r.i % 1000001 : ℕ) : ℚ) := Nat.cast_nonneg _
  have h1 : ((r.g r.i % 1000001 : ℕ) : ℚ) ≤ 1000000 := by
    have hlt : r.g r.i % 1000001 < 1000001 := Nat.mod_lt _ (by omega)
    have : r.g r.i % 1000001 ≤ 1000000 := by omega
    exact_mod_cast this
  constructor
  · have hnn : 0 ≤ (b - a) * ((r.g r.i % 1000001 : ℕ) : ℚ) / 1000000 :=
      div_nonneg (mul_nonneg (by linarith) h0) (by norm_num)
    linarith
  · have hle : (b - a) * ((r.g r.i % 1000001 : ℕ) : ℚ) / 1000000 ≤ b - a := by
      rw [div_le_iff₀ (by norm_num : (0 : ℚ) < 1000000)]
      nlinarith
    linarith

theorem round_mono_q {x y : ℚ} (h : x ≤ y) : round x ≤ round y := by
  rw [round_eq, round_eq]
  exact Int.floor_le_floor (by linarith)

theorem pyRound_bounds {m : ℚ} (hm : 0 < m) (ka kb : ℤ) {q : ℚ}
    (h1 : (ka : ℚ) / m ≤ q) (h2 : q ≤ (kb : ℚ) / m) :
    (ka : ℚ) / m ≤ pyRound m q ∧ pyRound m q ≤ (kb : ℚ) / m := by
  have h1' : (ka : ℚ) ≤ q * m := by rwa [div_le_iff₀ hm] at h1
  have h2' : q * m ≤ (kb : ℚ) := by rwa [le_div_iff₀ hm] at h2
  have r1 : ka ≤ round (q * m) := by
    have := round_mono_q h1'
    rwa [round_intCast] at this
  have r2 : round (q * m) ≤ kb := by
    have := round_mono_q h2'
    rwa [round_intCast] at this
  unfold pyRound
  constructor
  · rw [div_le_div_iff_of_pos_right hm]
    exact_mod_cast r1
  · rw [div_le_div_iff_of_pos_right hm]
    exact_mod_cast r2

theorem pyRound_den {m : ℚ} (hm : m ≠ 0) (q : ℚ) : (pyRound m q * m).den = 1 := by
  unfold pyRound
  rw [div_mul_cancel₀ _ hm]
  exact Rat.den_intCast _

theorem choice_mem {l : List α} (h : l ≠ []) (d : α) (r : Rng) :
    (choice l d r).1 ∈ l := by
  simp only [choice, Rng.next]
  have hl : 0 < l.length := List.length_pos.mpr h
  have hlt : r.g r.i % l.length < l.length := Nat.mod_lt _ hl
  rw [List.getD_eq_getElem?_getD, List.getElem?_eq_getElem hlt, Option.getD_some]
  exact List.getElem_mem hlt

theorem getD_mem {l : List α} {i : Nat} (h : i < l.length) (d : α) :
    l.getD i d ∈ l := by
  rw [List.getD_eq_getElem?_getD, List.getElem?_eq_getElem h, Option.getD_some]
  exact List.getElem_mem h

theorem sample_length : ∀ (k : Nat) (pop : List String) (r : Rng),
    (sample pop k r).1.length = min k pop.length := by
  intro k
  induction k with
  | zero => intro pop r; simp [sample]
  | succ k ih =>
    intro pop r
    by_cases hp : pop.isEmpty
    · rw [List.isEmpty_iff] at hp
      subst hp
      simp [sample]
    · have hne : pop ≠ [] := by
        rwa [List.isEmpty_iff] at hp
      have hl : 0 < pop.length := List.length_pos.mpr hne
      simp only [sample, hp, if_false, Bool.false_eq_true]
      simp only [List.length_cons, ih]
      have hlt : (r.next.1) % pop.length < pop.length := Nat.mod_lt _ hl
      rw [List.length_eraseIdx]
      simp only [hlt, if_true]
      omega

theorem sample_subset : ∀ (k : Nat) (pop : List String) (r : Rng),
    ∀ x ∈ (sample pop k r).1, x ∈ pop := by
  intro k
  induction k with
  | zero => intro pop r x hx; simp [sample] at hx
  | succ k ih =>
    intro pop r x hx
    by_cases hp : pop.isEmpty
    · simp [sample, hp] at hx
    · have hne : pop ≠ [] := by rwa [List.isEmpty_iff] at hp
      have hl : 0 < pop.length := List.length_pos.mpr hne
      simp only [sample, hp, if_false, Bool.false_eq_true, List.mem_cons] at hx
      rcases hx with hx | hx
      · subst hx
        exact getD_mem (Nat.mod_lt _ hl) ""
      · exact (List.eraseIdx_sublist pop _).subset (ih _ _ x hx)

theorem getD_not_mem_eraseIdx :
    ∀ (l : List String), l.Nodup → ∀ i, i < l.length → l.getD i "" ∉ l.eraseIdx i := by
  intro l
  induction l with
  | nil => intro _ i h; simp at h
  | cons a t ih =>
    intro hnd i hi
    rcases List.nodup_cons.mp hnd with ⟨ha, hnt⟩
    cases i with
    | zero => simpa using ha
    | succ i =>
      simp only [List.length_cons, Nat.succ_lt_succ_iff] at hi
      have hmem : t.getD i "" ∈ t := getD_mem hi ""
      simp only [List.getD_cons_succ, List.eraseIdx_cons_succ, List.mem_cons]
      push_neg
      constructor
      · intro he
        exact ha (he ▸ hmem)
      · exact ih hnt i hi

theorem sample_nodup : ∀ (k : Nat) (pop : List String) (r : Rng),
    pop.Nodup → (sample pop k r).1.Nodup := by
  intro k
  induction k with
  | zero => intro pop r _; simp [sample]
  | succ k ih =>
    intro pop r hnd
    by_cases hp : pop.isEmpty
    · simp [sample, hp]
    · have hne : pop ≠ [] := by rwa [List.isEmpty_iff] at hp
      have hl : 0 < pop.length := List.length_pos.mpr hne
      simp only [sample, hp, if_false, Bool.false_eq_true]
      rw [List.nodup_cons]
      constructor
      · intro hmem
        have hsub := sample_subset k (pop.eraseIdx (r.next.1 % pop.length)) r.next.2 _ hmem
        exact getD_not_mem_eraseIdx pop hnd _ (Nat.mod_lt _ hl) hsub
      · exact ih _ _ ((List.eraseIdx_sublist pop _).nodup hnd)

theorem head?_pyStripList {l : List Char} {c : Char}
    (h : (pyStripList l).head? = some c) : c.isWhitespace = false := by
  unfold pyStripList at h
  rw [List.head?_reverse] at h
  obtain ⟨u, hu⟩ := List.dropWhile_suffix (l := (l.dropWhile wsb).reverse) wsb
  have h2 : ((l.dropWhile wsb).reverse).getLast? = some c := by
    rw [← hu, List.getLast?_append, h]
    rfl
  rw [List.getLast?_reverse] at h2
  have h3 := List.head?_dropWhile_not wsb l
  rw [h2] at h3
  exact h3

theorem getLast?_pyStripList {l : List Char} {c : Char}
    (h : (pyStripList l).getLast? = some c) : c.isWhitespace = false := by
  unfold pyStripList at h
  rw [List.getLast?_reverse] at h
  have h3 := List.head?_dropWhile_not wsb ((l.dropWhile wsb).reverse)
  rw [h] at h3
  exact h3

/-- Decidable statement that a string has neither leading nor trailing
whitespace. -/
def noEdgeWS (s : String) : Bool :=
  (match s.data.head? with
   | some c => !c.isWhitespace
   | none => true) &&
  (match s.data.getLast? with
   | some c => !c.isWhitespace
   | none => true)

theorem noEdgeWS_pyStrip (s : String) : noEdgeWS (pyStrip s) = true := by
  unfold noEdgeWS pyStrip
  rw [Bool.and_eq_true]
  constructor
  · cases h : (pyStripList s.data).head? with
    | none => rfl
    | some c =>
      have := head?_pyStripList h
      simp [this]
  · cases h : (pyStripList s.data).getLast? with
    | none => rfl
    | some c =>
      have := getLast?_pyStripList h
      simp [this]

/-- The per-product field ranges claimed by the specification for the
fixture generator. -/
def ProductOk (p : Product) : Prop :=
  (999 : ℚ) / 100 ≤ p.price ∧ p.price ≤ (99999 : ℚ) / 100 ∧ (p.price * 100).den = 1 ∧
  3 ≤ p.rating ∧ p.rating ≤ 5 ∧ (p.rating * 10).den = 1 ∧
  p.stock_quantity ≤ 500 ∧
  1 ≤ p.tags.length ∧ p.tags.length ≤ 3 ∧ p.tags.Nodup ∧
  ∀ t ∈ p.tags, t ∈ tag_pool

instance (p : Product) : Decidable (ProductOk p) := by
  unfold ProductOk
  infer_instance

/-- The per-line-item properties: the referenced product exists, quantity is
in `[1, 3]`, and the line total is `round(quantity * price, 2)`. -/
def ItemOk (products : List Product) (it : OrderItem) : Prop :=
  (∃ p ∈ products, it.product_id = p.id) ∧ 1 ≤ it.quantity ∧ it.quantity ≤ 3 ∧
  it.total = round2 ((it.quantity : ℚ) * it.price)

/-- The per-order properties: every item is well-formed, the order total is
the rounded sum of the line totals, and there are 1-5 line items. -/
def OrderOk (products : List Product) (o : Order) : Prop :=
  (∀ it ∈ o.items, ItemOk products it) ∧
  o.total_amount = round2 ((o.items.map OrderItem.total).sum) ∧
  1 ≤ o.items.length ∧ o.items.length ≤ 5

theorem round2_price_mem (r : Rng) :
    (999 : ℚ) / 100 ≤ round2 (uniformQ (999 / 100) (99999 / 100) r).1 ∧
    round2 (uniformQ (999 / 100) (99999 / 100) r).1 ≤ (99999 : ℚ) / 100 := by
  have hu := uniformQ_mem (by norm_num : (999 : ℚ) / 100 ≤ 99999 / 100) r
  have c1 : ((999 : ℤ) : ℚ) = (999 : ℚ) := by norm_num
  have c2 : ((99999 : ℤ) : ℚ) = (99999 : ℚ) := by norm_num
  have hb := pyRound_bounds (by norm_num : (0 : ℚ) < 100) 999 99999
    (q := (uniformQ (999 / 100) (99999 / 100) r).1)
    (by rw [c1]; exact hu.1) (by rw [c2]; exact hu.2)
  rw [c1, c2] at hb
  exact hb

theorem round1_rating_mem (r : Rng) :
    (3 : ℚ) ≤ round1 (uniformQ 3 5 r).1 ∧ round1 (uniformQ 3 5 r).1 ≤ 5 := by
  have hu := uniformQ_mem (by norm_num : (3 : ℚ) ≤ 5) r
  have c1 : ((30 : ℤ) : ℚ) / 10 = (3 : ℚ) := by norm_num
  have c2 : ((50 : ℤ) : ℚ) / 10 = (5 : ℚ) := by norm_num
  have hb := pyRound_bounds (by norm_num : (0 : ℚ) < 10) 30 50
    (q := (uniformQ 3 5 r).1)
    (by rw [c1]; exact hu.1) (by rw [c2]; exact hu.2)
  rw [c1, c2] at hb
  exact hb

theorem sample_tags_ok {k : Nat} (hk1 : 1 ≤ k) (hk3 : k ≤ 3) (r : Rng) :
    1 ≤ (sample tag_pool k r).1.length ∧ (sample tag_pool k r).1.length ≤ 3 ∧
    (sample tag_pool k r).1.Nodup ∧
    ∀ t ∈ (sample tag_pool k r).1, t ∈ tag_pool := by
  have hlen := sample_length k tag_pool r
  have h6 : tag_pool.length = 6 := by decide
  rw [h6, Nat.min_eq_left (by omega)] at hlen
  exact ⟨by omega, by omega, sample_nodup k tag_pool r (by decide),
    sample_subset k tag_pool r⟩

theorem genProduct_fields (i : Nat) (r : Rng) :
    ProductOk (genProduct i r).1 ∧ (genProduct i r).1.id = i := by
  unfold genProduct ProductOk
  simp only
  refine ⟨⟨?_, ?_, ?_, ?_, ?_, ?_, ?_, ?_, ?_, ?_, ?_⟩, trivial⟩
  · exact (round2_price_mem _).1
  · exact (round2_price_mem _).2
  · exact pyRound_den (by norm_num) _
  · exact (round1_rating_mem _).1
  · exact (round1_rating_mem _).2
  · exact pyRound_den (by norm_num) _
  · exact (randint_mem (by omega) _).2
  · exact (sample_tags_ok (randint_mem (by omega) _).1 (randint_mem (by omega) _).2 _).1
  · exact (sample_tags_ok (randint_mem (by omega) _).1 (randint_mem (by omega) _).2 _).2.1
  · exact (sample_tags_ok (randint_mem (by omega) _).1 (randint_mem (by omega) _).2 _).2.2.1
  · exact (sample_tags_ok (randint_mem (by omega) _).1 (randint_mem (by omega) _).2 _).2.2.2

theorem genReviewsFor_spec (pid : Nat) (pname : String) :
    ∀ (k start : Nat) (r : Rng),
      (genReviewsFor pid pname start k r).1.length = k ∧
      ∀ rv ∈ (genReviewsFor pid pname start k r).1, rv.product_id = pid := by
  intro k
  induction k with
  | zero => intro start r; simp [genReviewsFor]
  | succ k ih =>
    intro start r
    simp only [genReviewsFor, List.length_cons, List.mem_cons]
    constructor
    · rw [(ih (start + 1) _).1]
    · rintro rv (hrv | hrv)
      · subst hrv; rfl
      · exact (ih (start + 1) _).2 rv hrv

/-- The number of reviews attributed to product id `j`. -/
def pidCount (j : Nat) (rs : List Review) : Nat :=
  rs.countP (fun rv => rv.product_id == j)

theorem pidCount_append (j : Nat) (rs rs' : List Review) :
    pidCount j (rs ++ rs') = pidCount j rs + pidCount j rs' :=
  List.countP_append _ _ _

theorem pidCount_all (j : Nat) {rs : List Review}
    (h : ∀ rv ∈ rs, rv.product_id = j) : pidCount j rs = rs.length := by
  unfold pidCount
  rw [List.countP_eq_length]
  intro rv hrv
  simp [h rv hrv]

theorem pidCount_none (j : Nat) {rs : List Review}
    (h : ∀ rv ∈ rs, rv.product_id ≠ j) : pidCount j rs = 0 := by
  unfold pidCount
  rw [List.countP_eq_zero]
  intro rv hrv
  simp [h rv hrv]

theorem genProductsLoop_spec :
    ∀ (n i : Nat) (ps : List Product) (rs : List Review) (r : Rng),
      (genProductsLoop n i ps rs r).1.map Product.id
          = ps.map Product.id ++ List.range' i n ∧
      (genProductsLoop n i ps rs r).1.length = ps.length + n ∧
      (∀ p ∈ (genProductsLoop n i ps rs r).1,
          p ∈ ps ∨ (ProductOk p ∧ i ≤ p.id ∧ p.id < i + n)) ∧
      rs.length + n ≤ (genProductsLoop n i ps rs r).2.1.length ∧
      (genProductsLoop n i ps rs r).2.1.length ≤ rs.length + 5 * n ∧
      (∀ rv ∈ (genProductsLoop n i ps rs r).2.1,
          rv ∈ rs ∨ (i ≤ rv.product_id ∧ rv.product_id < i + n)) ∧
      (∀ j, i ≤ j → j < i + n →
          pidCount j rs + 1 ≤ pidCount j (genProductsLoop n i ps rs r).2.1 ∧
          pidCount j (genProductsLoop n i ps rs r).2.1 ≤ pidCount j rs + 5) ∧
      (∀ j, j < i →
          pidCount j (genProductsLoop n i ps rs r).2.1 = pidCount j rs) := by
  intro n
  induction n with
  | zero =>
    intro i ps rs r
    simp only [genProductsLoop, List.range']
    refine ⟨by simp, by simp, ?_, by simp, by simp, ?_, ?_, ?_⟩
    · intro p hp; exact Or.inl hp
    · intro rv hrv; exact Or.inl hrv
    · intro j h1 h2; omega
    · intro j _; trivial
  | succ n ih =>
    intro i ps rs r
    simp only [genProductsLoop]
    have hu := randint_mem (by omega : 2 ≤ 6) (genProduct i r).2
    set u := randint 2 6 (genProduct i r).2 with hu_def
    have hk1 : 1 ≤ u.1 - 1 := by omega
    have hk5 : u.1 - 1 ≤ 5 := by omega
    have hrv := genReviewsFor_spec i (genProduct i r).1.name (u.1 - 1) rs.length u.2
    set rvs := genReviewsFor i (genProduct i r).1.name rs.length (u.1 - 1) u.2 with hrvs_def
    have H := ih (i + 1) (ps ++ [(genProduct i r).1]) (rs ++ rvs.1) rvs.2
    obtain ⟨H1, H2, H3, H4, H5, H6, H7, H8⟩ := H
    have hpid : (genProduct i r).1.id = i := (genProduct_fields i r).2
    refine ⟨?_, ?_, ?_, ?_, ?_, ?_, ?_, ?_⟩
    · rw [H1, List.map_append, List.range'_succ]
      simp [hpid]
    · rw [H2]
      simp only [List.length_append, List.length_cons, List.length_nil]
      omega
    · intro p hp
      rcases H3 p hp with hmem | ⟨hok, hlo, hhi⟩
      · rcases List.mem_append.mp hmem with hmem | hmem
        · exact Or.inl hmem
        · right
          have : p = (genProduct i r).1 := by simpa using hmem
          subst this
          exact ⟨(genProduct_fields i r).1, by omega, by omega⟩
      · exact Or.inr ⟨hok, by omega, by omega⟩
    · have : (rs ++ rvs.1).length = rs.length + (u.1 - 1) := by
        rw [List.length_append, hrv.1]
      omega
    · have : (rs ++ rvs.1).length = rs.length + (u.1 - 1) := by
        rw [List.length_append, hrv.1]
      omega
    · intro rv hmem
      rcases H6 rv hmem with hmem' | ⟨hlo, hhi⟩
      · rcases List.mem_append.mp hmem' with hmem'' | hmem''
        · exact Or.inl hmem''
        · right
          rw [hrv.2 rv hmem'']
          omega
      · exact Or.inr ⟨by omega, by omega⟩
    · intro j hj1 hj2
      by_cases hji : j = i
      · subst hji
        have heq := H8 j (by omega)
        have hall : pidCount j rvs.1 = rvs.1.length := pidCount_all j hrv.2
        rw [heq, pidCount_append, hall, hrv.1]
        omega
      · have hj1' : i + 1 ≤ j := by omega
        have hj2' : j < i + 1 + n := by omega
        have hbd := H7 j hj1' hj2'
        have hzero : pidCount j rvs.1 = 0 := by
          apply pidCount_none
          intro rv hmem
          rw [hrv.2 rv hmem]
          omega
        rw [pidCount_append, hzero] at hbd
        omega
    · intro j hj
      have hzero : pidCount j rvs.1 = 0 := by
        apply pidCount_none
        intro rv hmem
        rw [hrv.2 rv hmem]
        omega
      rw [H8 j (by omega), pidCount_append, hzero]
      omega

theorem genItemsLoop_spec (products : List Product) (dp : Product)
    (hne : products ≠ []) :
    ∀ (n : Nat) (r : Rng),
      (genItemsLoop products dp n r).1.length = n ∧
      (∀ it ∈ (genItemsLoop products dp n r).1, ItemOk products it) ∧
      (genItemsLoop products dp n r).2.1
        = ((genItemsLoop products dp n r).1.map OrderItem.total).sum := by
  intro n
  induction n with
  | zero => intro r; simp [genItemsLoop]
  | succ n ih =>
    intro r
    simp only [genItemsLoop, List.length_cons, List.mem_cons, List.map_cons,
      List.sum_cons]
    have hq := randint_mem (by omega : 1 ≤ 3) (choice products dp r).2
    refine ⟨?_, ?_, ?_⟩
    · rw [(ih _).1]
    · rintro it (hit | hit)
      · subst hit
        refine ⟨⟨(choice products dp r).1, choice_mem hne dp r, rfl⟩, hq.1, hq.2, rfl⟩
      · exact (ih _).2.1 it hit
    · rw [(ih _).2.2]

theorem genOrder_spec (oid : Nat) (products : List Product)
    (hne : products ≠ []) (r : Rng) :
    OrderOk products (genOrder oid products r).1 ∧ (genOrder oid products r).1.id = oid := by
  unfold genOrder OrderOk
  simp only
  have hn := randint_mem (by omega : 1 ≤ 5) r
  have hi := genItemsLoop_spec products defaultProduct hne (randint 1 5 r).1 (randint 1 5 r).2
  refine ⟨⟨hi.2.1, ?_, ?_, ?_⟩, trivial⟩
  · rw [hi.2.2]
  · rw [hi.1]; exact hn.1
  · rw [hi.1]; exact hn.2

theorem genOrdersLoop_spec (products : List Product) (hne : products ≠ []) :
    ∀ (n oid : Nat) (os : List Order) (r : Rng),
      (genOrdersLoop products n oid os r).1.length = os.length + n ∧
      ∀ o ∈ (genOrdersLoop products n oid os r).1, o ∈ os ∨ OrderOk products o := by
  intro n
  induction n with
  | zero =>
    intro oid os r
    simp only [genOrdersLoop]
    exact ⟨rfl, fun o ho => Or.inl ho⟩
  | succ n ih =>
    intro oid os r
    simp only [genOrdersLoop]
    have H := ih (oid + 1) (os ++ [(genOrder oid products r).1]) (genOrder oid products r).2
    refine ⟨?_, ?_⟩
    · rw [H.1]
      simp only [List.length_append, List.length_cons, List.length_nil]
      omega
    · intro o ho
      rcases H.2 o ho with hmem | hok
      · rcases List.mem_append.mp hmem with hmem' | hmem'
        · exact Or.inl hmem'
        · right
          have : o = (genOrder oid products r).1 := by simpa using hmem'
          subst this
          exact (genOrder_spec oid products hne r).1
      · exact Or.inr hok

/-- The combined invariant of one run of the fixture generator. -/
theorem generate_spec (now : Nat) (r : Rng) :
    (generate_sample_ecommerce_data now r).1.products.map Product.id = List.range' 1 1000 ∧
    (generate_sample_ecommerce_data now r).1.products.length = 1000 ∧
    (generate_sample_ecommerce_data now r).1.orders.length = 200 ∧
    1000 ≤ (generate_sample_ecommerce_data now r).1.reviews.length ∧
    (generate_sample_ecommerce_data now r).1.reviews.length ≤ 5000 ∧
    (∀ p ∈ (generate_sample_ecommerce_data now r).1.products, ProductOk p) ∧
    (∀ rv ∈ (generate_sample_ecommerce_data now r).1.reviews,
        1 ≤ rv.product_id ∧ rv.product_id ≤ 1000) ∧
    (∀ j, 1 ≤ j → j ≤ 1000 →
        1 ≤ pidCount j (generate_sample_ecommerce_data now r).1.reviews ∧
        pidCount j (generate_sample_ecommerce_data now r).1.reviews ≤ 5) ∧
    (∀ o ∈ (generate_sample_ecommerce_data now r).1.orders,
        OrderOk (generate_sample_ecommerce_data now r).1.products o) ∧
    (generate_sample_ecommerce_data now r).1.generated_at = now ∧
    (generate_sample_ecommerce_data now r).1.total_products
      = (generate_sample_ecommerce_data now r).1.products.length ∧
    (generate_sample_ecommerce_data now r).1.total_reviews
      = (generate_sample_ecommerce_data now r).1.reviews.length ∧
    (generate_sample_ecommerce_data now r).1.total_orders
      = (generate_sample_ecommerce_data now r).1.orders.length := by
  have HP := genProductsLoop_spec 1000 1 [] [] r
  obtain ⟨H1, H2, H3, H4, H5, H6, H7, H8⟩ := HP
  have hne : (genProductsLoop 1000 1 [] [] r).1 ≠ [] := by
    intro hemp
    rw [hemp] at H2
    simp at H2
  have HO := genOrdersLoop_spec (genProductsLoop 1000 1 [] [] r).1 hne 200 1 []
    (genProductsLoop 1000 1 [] [] r).2.2
  unfold generate_sample_ecommerce_data
  simp only
  refine ⟨?_, ?_, ?_, ?_, ?_, ?_, ?_, ?_, ?_, trivial, trivial, trivial, trivial⟩
  · simpa using H1
  · simpa using H2
  · simpa using HO.1
  · simpa using H4
  · simpa using H5
  · intro p hp
    rcases H3 p hp with hmem | ⟨hok, _, _⟩
    · simp at hmem
    · exact hok
  · intro rv hrv
    rcases H6 rv hrv with hmem | ⟨hlo, hhi⟩
    · simp at hmem
    · exact ⟨by omega, by omega⟩
  · intro j hj1 hj2
    have := H7 j (by omega) (by omega)
    have hnil : pidCount j ([] : List Review) = 0 := rfl
    rw [hnil] at this
    omega
  · intro o ho
    rcases HO.2 o ho with hmem | hok
    · simp at hmem
    · exact hok

def prodKeys : List String := ["source", "id", "category", "brand", "price", "rating"]

def revKeys : List String := ["source", "product_id", "rating", "verified"]

def ordKeys : List String := ["source", "order_id", "product_id", "status"]

/-- The exact metadata shape of a synthesized chunk: the key list is the
fixed per-category list and the `source` value names the category. -/
def keysOfOk (doc : Doc) : Prop :=
  (doc.metadata.map Prod.fst = prodKeys ∧ doc.metadata.lookup "source" = some (.s "products")) ∨
  (doc.metadata.map Prod.fst = revKeys ∧ doc.metadata.lookup "source" = some (.s "reviews")) ∨
  (doc.metadata.map Prod.fst = ordKeys ∧ doc.metadata.lookup "source" = some (.s "orders"))

theorem docsOf_mem_cases {d : EcommerceData} {doc : Doc} (h : doc ∈ docsOf d) :
    (∃ p ∈ d.products, doc = productDoc p) ∨
    (∃ rv ∈ d.reviews, doc = reviewDoc rv) ∨
    (∃ o ∈ d.orders, ∃ it ∈ o.items, doc = orderItemDoc o it) := by
  unfold docsOf at h
  rcases List.mem_append.mp h with h1 | h2
  · rcases List.mem_append.mp h1 with hp | hr
    · obtain ⟨p, hp, he⟩ := List.mem_map.mp hp
      exact Or.inl ⟨p, hp, he.symm⟩
    · obtain ⟨rv, hrv, he⟩ := List.mem_map.mp hr
      exact Or.inr (Or.inl ⟨rv, hrv, he.symm⟩)
  · obtain ⟨o, ho, hmem⟩ := List.mem_flatMap.mp h2
    obtain ⟨it, hit, he⟩ := List.mem_map.mp hmem
    exact Or.inr (Or.inr ⟨o, ho, it, hit, he.symm⟩)

theorem docsOf_keys (d : EcommerceData) : ∀ doc ∈ docsOf d, keysOfOk doc := by
  intro doc h
  rcases docsOf_mem_cases h with ⟨p, _, he⟩ | ⟨rv, _, he⟩ | ⟨o, _, it, _, he⟩
  · subst he; exact Or.inl ⟨rfl, rfl⟩
  · subst he; exact Or.inr (Or.inl ⟨rfl, rfl⟩)
  · subst he; exact Or.inr (Or.inr ⟨rfl, rfl⟩)

theorem docsOf_trimmed (d : EcommerceData) :
    ∀ doc ∈ docsOf d, noEdgeWS doc.page_content = true := by
  intro doc h
  rcases docsOf_mem_cases h with ⟨p, _, he⟩ | ⟨rv, _, he⟩ | ⟨o, _, it, _, he⟩
  · subst he; exact noEdgeWS_pyStrip _
  · subst he; exact noEdgeWS_pyStrip _
  · subst he; exact noEdgeWS_pyStrip _

theorem load_preserves (env : Env) (st : St) :
    ((load_ecommerce_data_from_json env st).2).rag_chain = st.rag_chain ∧
    ((load_ecommerce_data_from_json env st).2).chainCalls = st.chainCalls ∧
    ((load_ecommerce_data_from_json env st).2).collabCalls = st.collabCalls := by
  unfold load_ecommerce_data_from_json
  cases hfs : st.fs with
  | none =>
    by_cases hg : env.genOk
    · by_cases hl : env.loadOk <;> simp [hg, hl]
    · simp [hg]
  | some d =>
    by_cases hl : env.loadOk <;> simp [hl]

theorem setup_preserves (env : Env) (st : St) :
    ((setup_rag_chain env st).2).rag_chain = st.rag_chain ∧
    ((setup_rag_chain env st).2).chainCalls = st.chainCalls := by
  unfold setup_rag_chain
  have hl := load_preserves env st
  by_cases he : (load_ecommerce_data_from_json env st).1.isEmpty
  · simp only [he, if_true]
    exact ⟨hl.1, hl.2.1⟩
  · by_cases hc : env.collabOk <;>
      simp only [he, if_false, Bool.false_eq_true, hc, if_true] <;>
      exact ⟨hl.1, hl.2.1⟩

theorem init_preserves (env : Env) (st : St) :
    ((init_rag env st).2).chainCalls = st.chainCalls := by
  unfold init_rag
  simp only
  exact (setup_preserves env st).2

theorem setup_empty (env : Env) (st : St)
    (h : (load_ecommerce_data_from_json env st).1 = []) :
    (setup_rag_chain env st).1 = none ∧
    ((setup_rag_chain env st).2).collabCalls = st.collabCalls := by
  unfold setup_rag_chain
  simp only [h, List.isEmpty_nil, if_true]
  exact ⟨trivial, (load_preserves env st).2.2⟩

theorem setup_collabFail (env : Env) (st : St) (h : env.collabOk = false) :
    (setup_rag_chain env st).1 = none := by
  unfold setup_rag_chain
  by_cases he : (load_ecommerce_data_from_json env st).1.isEmpty
  · simp [he]
  · simp [he, h]

def rng0 : Rng := ⟨fun _ => 0, 0⟩

def env0 : Env := ⟨0, true, true, true, none, fun docs _ => docs, fun _ => .ok "A"⟩

def envGenFail : Env := ⟨0, false, true, true, none, fun docs _ => docs, fun _ => .ok "A"⟩

def envLoadFail : Env := ⟨0, true, false, true, none, fun docs _ => docs, fun _ => .ok "A"⟩

def envCollabFail : Env := ⟨0, true, true, false, none, fun docs _ => docs, fun _ => .ok "A"⟩

def st0 : St := ⟨none, none, rng0, 0, 0⟩

def chainE : Chain := ⟨[], 8⟩

def stWithChain : St := ⟨some chainE, none, rng0, 0, 0⟩

def cst0 : CSt := ⟨some ⟨[], 5⟩, 0, 0⟩

def rv0 : Review := ⟨1, 7, "Gadget", 5, "Great", "Customer1234", 3, true⟩

def tinyReviewData : EcommerceData := ⟨[], [rv0], [], 0, 0, 1, 0⟩

def dbRow0 : DbProductRow := ⟨1, "Gadget", "desc", 5, "Electronics", 2, "BrandA", 4⟩

def envDb : Env := ⟨0, true, true, true, some ⟨[dbRow0], [], [], []⟩, fun docs _ => docs, fun _ => .ok "A"⟩

set_option maxRecDepth 100000

/-- Claim C1, as stated, is false: a review chunk synthesized by
`load_ecommerce_data_from_json` has metadata keys exactly
`[source, product_id, rating, verified]` — it carries no `id` key (and an
order chunk likewise has none), contradicting "the Chunk's metadata mapping
contains both a 'source' key and an 'id' key". -/
theorem c1_counterexample :
    (docsOf tinyReviewData).map (fun doc => doc.metadata.map Prod.fst) = [revKeys] ∧
    "id" ∉ revKeys ∧ "source" ∈ revKeys := by
  refine ⟨?_, by decide, by decide⟩
  rfl

/-- Claim C1 (amended): every chunk synthesized by the fixture Document
Synthesizer carries a `source` key, its metadata key list is exactly the
fixed per-category list (products `[source, id, category, brand, price,
rating]`, reviews `[source, product_id, rating, verified]`, orders
`[source, order_id, product_id, status]`), and an `id` key is present
exactly for product chunks. -/
theorem c1_meta_keys (d : EcommerceData) :
    ∀ doc ∈ docsOf d,
      keysOfOk doc ∧ "source" ∈ doc.metadata.map Prod.fst ∧
      ("id" ∈ doc.metadata.map Prod.fst ↔
        doc.metadata.lookup "source" = some (.s "products")) := by
  intro doc h
  have hk := docsOf_keys d doc h
  refine ⟨hk, ?_, ?_⟩
  · rcases hk with ⟨hkeys, _⟩ | ⟨hkeys, _⟩ | ⟨hkeys, _⟩ <;> rw [hkeys] <;> decide
  · rcases hk with ⟨hkeys, hsrc⟩ | ⟨hkeys, hsrc⟩ | ⟨hkeys, hsrc⟩ <;>
      rw [hkeys, hsrc] <;> decide

theorem c1_meta_keys_witness :
    keysOfOk (reviewDoc rv0) ∧ "source" ∈ (reviewDoc rv0).metadata.map Prod.fst ∧
    ("id" ∈ (reviewDoc rv0).metadata.map Prod.fst ↔
      (reviewDoc rv0).metadata.lookup "source" = some (.s "products")) :=
  c1_meta_keys tinyReviewData (reviewDoc rv0) (by decide)

/-- Claim C7, as stated, is false: under the live strategy (copy.py),
the rendered template is not stripped, so every chunk it synthesizes
begins with a newline — here a concrete product chunk produced by
`load_ecommerce_data` from one database row. -/
theorem c7_counterexample :
    (copy_load_ecommerce_data envDb).map (fun doc => doc.page_content.data.head?)
      = [some '\n'] ∧
    ('\n').isWhitespace = true := by
  exact ⟨rfl, by decide⟩

/-- Claim C7 (amended): under the fixture strategy (views.py) every
synthesized chunk's text is stripped, hence has no leading and no trailing
whitespace; under the live strategy (copy.py) the text is not stripped and
starts with whitespace. -/
theorem c7_fixture_trimmed (d : EcommerceData) :
    ∀ doc ∈ docsOf d, noEdgeWS doc.page_content = true := by
  intro doc h
  exact docsOf_trimmed d doc h

theorem c7_fixture_trimmed_witness :
    noEdgeWS (reviewDoc rv0).page_content = true :=
  c7_fixture_trimmed tinyReviewData (reviewDoc rv0) (by decide)

theorem load_fs_keep (env : Env) (st : St) {d : EcommerceData} (h : st.fs = some d) :
    (load_ecommerce_data_from_json env st).2 = st := by
  unfold load_ecommerce_data_from_json
  rw [h]
  by_cases hl : env.loadOk <;> simp [hl]

theorem setup_fs (env : Env) (st : St) :
    ((setup_rag_chain env st).2).fs = ((load_ecommerce_data_from_json env st).2).fs := by
  unfold setup_rag_chain
  by_cases he : (load_ecommerce_data_from_json env st).1.isEmpty
  · simp [he]
  · by_cases hc : env.collabOk <;> simp [he, hc]

/-- Claim C4: one run of the fixture generator produces exactly 1000
products with ids exactly `1..1000`, exactly 200 orders, between 1000 and
5000 reviews (between 1 and 5 per product id), stamps the snapshot with the
generation timestamp, and both the lazy first load and the refresh
operation persist exactly that generated snapshot as the new file
contents. -/
theorem c4_fixture_generation :
    ∀ (now : Nat) (r : Rng),
      (generate_sample_ecommerce_data now r).1.products.length = 1000 ∧
      (generate_sample_ecommerce_data now r).1.products.map Product.id
        = List.range' 1 1000 ∧
      (generate_sample_ecommerce_data now r).1.orders.length = 200 ∧
      1000 ≤ (generate_sample_ecommerce_data now r).1.reviews.length ∧
      (generate_sample_ecommerce_data now r).1.reviews.length ≤ 5000 ∧
      (∀ j, 1 ≤ j → j ≤ 1000 →
        1 ≤ pidCount j (generate_sample_ecommerce_data now r).1.reviews ∧
        pidCount j (generate_sample_ecommerce_data now r).1.reviews ≤ 5) ∧
      (generate_sample_ecommerce_data now r).1.generated_at = now ∧
      (∀ (env : Env) (st : St), st.fs = none → env.genOk = true →
        ((load_ecommerce_data_from_json env st).2).fs
          = some (generate_sample_ecommerce_data env.now st.rng).1) ∧
      (∀ (env : Env) (st : St), env.genOk = true →
        ((refresh_rag_data env st).2).fs
          = some (generate_sample_ecommerce_data env.now st.rng).1) := by
  intro now r
  have G := generate_spec now r
  refine ⟨G.2.1, G.1, G.2.2.1, G.2.2.2.1, G.2.2.2.2.1, G.2.2.2.2.2.2.2.1,
    G.2.2.2.2.2.2.2.2.2.1, ?_, ?_⟩
  · intro env st hfs hg
    unfold load_ecommerce_data_from_json
    rw [hfs]
    by_cases hl : env.loadOk <;> simp [hg, hl]
  · intro env st hg
    unfold refresh_rag_data
    rw [hg]
    simp only [if_true]
    rw [setup_fs, load_fs_keep _ _ (by rfl)]

theorem c4_fixture_generation_witness :
    (1 ≤ pidCount 1 (generate_sample_ecommerce_data 0 rng0).1.reviews ∧
      pidCount 1 (generate_sample_ecommerce_data 0 rng0).1.reviews ≤ 5) ∧
    ((load_ecommerce_data_from_json env0 st0).2).fs
      = some (generate_sample_ecommerce_data env0.now st0.rng).1 ∧
    ((refresh_rag_data env0 st0).2).fs
      = some (generate_sample_ecommerce_data env0.now st0.rng).1 :=
  ⟨(c4_fixture_generation 0 rng0).2.2.2.2.2.1 1 (by norm_num) (by norm_num),
   (c4_fixture_generation 0 rng0).2.2.2.2.2.2.2.1 env0 st0 rfl rfl,
   (c4_fixture_generation 0 rng0).2.2.2.2.2.2.2.2 env0 st0 rfl⟩

/-- Claim C8: every generated product has price in `[9.99, 999.99]` rounded
to 2 decimals, rating in `[3.0, 5.0]` rounded to 1 decimal, stock in
`[0, 500]`, 1-3 distinct tags from the fixed 6-tag vocabulary; the
`is_active` draw is a uniform choice from a 4-element list containing
`true` three times (probability 3/4); every order line item has quantity in
`[1, 3]`. -/
theorem c8_product_numeric_ranges :
    ∀ (now : Nat) (r : Rng),
      ((generate_sample_ecommerce_data now r).1.products.all
        (fun p => decide (ProductOk p))) = true ∧
      ((generate_sample_ecommerce_data now r).1.orders.all
        (fun o => o.items.all
          (fun it => decide (1 ≤ it.quantity ∧ it.quantity ≤ 3)))) = true ∧
      active_pool.count true = 3 ∧ active_pool.length = 4 := by
  intro now r
  have G := generate_spec now r
  refine ⟨?_, ?_, by decide, by decide⟩
  · rw [List.all_eq_true]
    intro p hp
    exact decide_eq_true (G.2.2.2.2.2.1 p hp)
  · rw [List.all_eq_true]
    intro o ho
    rw [List.all_eq_true]
    intro it hit
    have hio := (G.2.2.2.2.2.2.2.2.1 o ho).1 it hit
    exact decide_eq_true ⟨hio.2.1, hio.2.2.1⟩

/-- Claim C9: referential integrity of the generated snapshot — every
review's `product_id` and every order line item's `product_id` equals the
id of some generated product. -/
theorem c9_referential_integrity :
    ∀ (now : Nat) (r : Rng),
      ((generate_sample_ecommerce_data now r).1.reviews.all
        (fun rv => (generate_sample_ecommerce_data now r).1.products.any
          (fun p => p.id == rv.product_id))) = true ∧
      ((generate_sample_ecommerce_data now r).1.orders.all
        (fun o => o.items.all
          (fun it => (generate_sample_ecommerce_data now r).1.products.any
            (fun p => p.id == it.product_id)))) = true := by
  intro now r
  have G := generate_spec now r
  constructor
  · rw [List.all_eq_true]
    intro rv hrv
    have hpid := G.2.2.2.2.2.2.1 rv hrv
    have hmem : rv.product_id ∈
        (generate_sample_ecommerce_data now r).1.products.map Product.id := by
      rw [G.1, List.mem_range']
      exact ⟨rv.product_id - 1, by omega, by omega⟩
    obtain ⟨p, hp, hpe⟩ := List.mem_map.mp hmem
    rw [List.any_eq_true]
    exact ⟨p, hp, by simp [hpe]⟩
  · rw [List.all_eq_true]
    intro o ho
    rw [List.all_eq_true]
    intro it hit
    obtain ⟨p, hp, hpe⟩ := ((G.2.2.2.2.2.2.2.2.1 o ho).1 it hit).1
    rw [List.any_eq_true]
    exact ⟨p, hp, by simp [hpe]⟩

/-- Claim C10: in the generated snapshot, each line item's `total` is
`round(quantity * price, 2)`, each order's `total_amount` is the rounded
sum of its items' totals, and the top-level counters equal the lengths of
the corresponding lists. -/
theorem c10_totals :
    ∀ (now : Nat) (r : Rng),
      ((generate_sample_ecommerce_data now r).1.orders.all
        (fun o =>
          (o.items.all
            (fun it => decide (it.total = round2 ((it.quantity : ℚ) * it.price)))) &&
          decide (o.total_amount
            = round2 ((o.items.map OrderItem.total).sum)))) = true ∧
      (generate_sample_ecommerce_data now r).1.total_products
        = (generate_sample_ecommerce_data now r).1.products.length ∧
      (generate_sample_ecommerce_data now r).1.total_reviews
        = (generate_sample_ecommerce_data now r).1.reviews.length ∧
      (generate_sample_ecommerce_data now r).1.total_orders
        = (generate_sample_ecommerce_data now r).1.orders.length := by
  intro now r
  have G := generate_spec now r
  refine ⟨?_, G.2.2.2.2.2.2.2.2.2.2.1, G.2.2.2.2.2.2.2.2.2.2.2.1,
    G.2.2.2.2.2.2.2.2.2.2.2.2⟩
  rw [List.all_eq_true]
  intro o ho
  have ho2 := G.2.2.2.2.2.2.2.2.1 o ho
  rw [Bool.and_eq_true]
  constructor
  · rw [List.all_eq_true]
    intro it hit
    exact decide_eq_true ((ho2.1 it hit).2.2.2)
  · exact decide_eq_true ho2.2.1

theorem refresh_shape (env : Env) (st : St) (hg : env.genOk = true) :
    ∃ st1 : St,
      refresh_rag_data env st = ((setup_rag_chain env st1).1.isSome,
        {(setup_rag_chain env st1).2 with rag_chain := (setup_rag_chain env st1).1}) := by
  refine ⟨{st with fs := some (generate_sample_ecommerce_data env.now st.rng).1,
                   rng := (generate_sample_ecommerce_data env.now st.rng).2}, ?_⟩
  unfold refresh_rag_data
  rw [if_pos hg]

theorem refresh_genFail (env : Env) (st : St) (hg : env.genOk = false) :
    refresh_rag_data env st = (false, st) := by
  unfold refresh_rag_data
  rw [if_neg (by simp [hg])]

theorem init_shape (env : Env) (st : St) :
    init_rag env st = ((setup_rag_chain env st).1.isSome,
      {(setup_rag_chain env st).2 with rag_chain := (setup_rag_chain env st).1}) := rfl

theorem copy_refresh_shape (env : Env) (cst : CSt) :
    copy_refresh_rag_data env cst = ((copy_setup_rag_chain env cst).1.isSome,
      {(copy_setup_rag_chain env cst).2 with
        rag_chain := (copy_setup_rag_chain env cst).1}) := rfl

/-- Claim C3, as stated, is false on the exceptional path: when the data
regeneration inside `refresh_rag_data` raises (here: the snapshot write
fails), the handler returns `False` WITHOUT discarding the previously held
chain — the session keeps the old index instead of being left
uninitialized. -/
theorem c3_counterexample :
    (refresh_rag_data envGenFail stWithChain).1 = false ∧
    ((refresh_rag_data envGenFail stWithChain).2).rag_chain = some chainE :=
  ⟨rfl, rfl⟩

/-- Claim C3 (amended): `refresh_rag_data` returns `true` iff regeneration
succeeded and the rebuilt chain is usable; when it returns `false` after a
successful regeneration the previous chain is discarded (session left
uninitialized), but when the regeneration itself raises the previous state
— including any previously held chain — is retained unchanged.  copy.py's
refresh, which has no regeneration step, always discards on `false`. -/
theorem c3_refresh_behavior :
    ∀ (env : Env) (st : St),
      ((refresh_rag_data env st).1 = true ↔
        (env.genOk = true ∧ ((refresh_rag_data env st).2).rag_chain.isSome = true)) ∧
      (env.genOk = true → (refresh_rag_data env st).1 = false →
        ((refresh_rag_data env st).2).rag_chain = none) ∧
      (env.genOk = false → (refresh_rag_data env st).2 = st) ∧
      (∀ cst : CSt, (copy_refresh_rag_data env cst).1 = false →
        ((copy_refresh_rag_data env cst).2).rag_chain = none) := by
  intro env st
  refine ⟨?_, ?_, ?_, ?_⟩
  · by_cases hg : env.genOk = true
    · obtain ⟨st1, hsu⟩ := refresh_shape env st hg
      rw [hsu]
      cases h1 : (setup_rag_chain env st1).1 <;> simp [hg, h1]
    · have hg' : env.genOk = false := by
        revert hg; cases env.genOk <;> simp
      rw [refresh_genFail env st hg']
      simp [hg']
  · intro hg hfalse
    obtain ⟨st1, hsu⟩ := refresh_shape env st hg
    rw [hsu] at hfalse ⊢
    cases h1 : (setup_rag_chain env st1).1
    · simp
    · rw [h1] at hfalse
      simp at hfalse
  · intro hg
    rw [refresh_genFail env st hg]
  · intro cst hfalse
    rw [copy_refresh_shape] at hfalse ⊢
    cases h1 : (copy_setup_rag_chain env cst).1
    · simp
    · rw [h1] at hfalse
      simp at hfalse

theorem c3_refresh_behavior_witness :
    (refresh_rag_data envGenFail stWithChain).2 = stWithChain ∧
    ((refresh_rag_data envLoadFail st0).2).rag_chain = none ∧
    ((copy_refresh_rag_data env0 cst0).2).rag_chain = none :=
  ⟨(c3_refresh_behavior envGenFail stWithChain).2.2.1 rfl,
   (c3_refresh_behavior envLoadFail st0).2.1 rfl rfl,
   (c3_refresh_behavior env0 st0).2.2.2 cst0 rfl⟩

/-- Claim C5: every Record Source / Index Builder failure is absorbed, never
raised to the dispatcher — a failing load (generation failure, read
failure, or unavailable database) yields the empty record set; an empty
chunk set makes setup return "no index" without invoking the
embedding/index collaborator; a collaborator failure during build is
absorbed into a `none` chain so that initialization and refresh surface
only as a boolean outcome. -/
theorem c5_failures_absorbed :
    (∀ (env : Env) (st : St), env.genOk = false → st.fs = none →
      load_ecommerce_data_from_json env st = ([], st)) ∧
    (∀ (env : Env) (st : St), env.loadOk = false →
      (load_ecommerce_data_from_json env st).1 = []) ∧
    (∀ env : Env, env.dbData = none → copy_load_ecommerce_data env = []) ∧
    (∀ (env : Env) (st : St), (load_ecommerce_data_from_json env st).1 = [] →
      (setup_rag_chain env st).1 = none ∧
      ((setup_rag_chain env st).2).collabCalls = st.collabCalls) ∧
    (∀ (env : Env) (st : St), env.collabOk = false →
      (setup_rag_chain env st).1 = none ∧ (init_rag env st).1 = false ∧
      (refresh_rag_data env st).1 = false) ∧
    (∀ (env : Env) (cst : CSt), copy_load_ecommerce_data env = [] →
      copy_setup_rag_chain env cst = (none, cst)) := by
  refine ⟨?_, ?_, ?_, ?_, ?_, ?_⟩
  · intro env st hg hfs
    unfold load_ecommerce_data_from_json
    rw [hfs]
    simp [hg]
  · intro env st hl
    unfold load_ecommerce_data_from_json
    cases hfs : st.fs with
    | none => by_cases hg : env.genOk <;> simp [hg, hl]
    | some d => simp [hl]
  · intro env hdb
    unfold copy_load_ecommerce_data
    rw [hdb]
  · intro env st h
    exact setup_empty env st h
  · intro env st hc
    refine ⟨setup_collabFail env st hc, ?_, ?_⟩
    · rw [init_shape, setup_collabFail env st hc]
      rfl
    · by_cases hg : env.genOk = true
      · obtain ⟨st1, hsu⟩ := refresh_shape env st hg
        rw [hsu, setup_collabFail env st1 hc]
        rfl
      · have hg' : env.genOk = false := by
          revert hg; cases env.genOk <;> simp
        rw [refresh_genFail env st hg']
  · intro env cst h
    unfold copy_setup_rag_chain
    rw [h]
    simp

theorem c5_failures_absorbed_witness :
    load_ecommerce_data_from_json envGenFail st0 = ([], st0) ∧
    (load_ecommerce_data_from_json envLoadFail st0).1 = [] ∧
    copy_load_ecommerce_data env0 = [] ∧
    ((setup_rag_chain envGenFail st0).1 = none ∧
      ((setup_rag_chain envGenFail st0).2).collabCalls = st0.collabCalls) ∧
    ((setup_rag_chain envCollabFail st0).1 = none ∧
      (init_rag envCollabFail st0).1 = false ∧
      (refresh_rag_data envCollabFail st0).1 = false) ∧
    copy_setup_rag_chain env0 cst0 = (none, cst0) :=
  ⟨c5_failures_absorbed.1 envGenFail st0 rfl rfl,
   c5_failures_absorbed.2.1 envLoadFail st0 rfl,
   c5_failures_absorbed.2.2.1 env0 rfl,
   c5_failures_absorbed.2.2.2.1 envGenFail st0 rfl,
   c5_failures_absorbed.2.2.2.2.1 envCollabFail st0 rfl,
   c5_failures_absorbed.2.2.2.2.2 env0 cst0 rfl⟩

theorem copy_setup_preserves (env : Env) (cst : CSt) :
    ((copy_setup_rag_chain env cst).2).chainCalls = cst.chainCalls := by
  unfold copy_setup_rag_chain
  by_cases he : (copy_load_ecommerce_data env).isEmpty <;>
    by_cases hc : env.collabOk <;> simp [he, hc]

theorem copy_init_chainCalls (env : Env) (cst : CSt) :
    (copy_init_rag env cst).chainCalls = cst.chainCalls := by
  unfold copy_init_rag
  simp only
  exact copy_setup_preserves env cst

/-- Claim C2, as stated, is false for copy.py's dispatcher: the query is
not stripped there, so the whitespace-only query `"   "` is truthy — with
an initialized chain the dispatcher invokes the retrieval chain (the
invocation counter rises) and returns the collaborator's answer with no
error, instead of rejecting with the invalid-query error. -/
theorem c2_counterexample :
    (copy_rag_view env0 cst0 ⟨true, "query", "   "⟩).1 = ⟨some "A", none⟩ ∧
    ((copy_rag_view env0 cst0 ⟨true, "query", "   "⟩).2).chainCalls
      = cst0.chainCalls + 1 :=
  ⟨rfl, rfl⟩

/-- Claim C2 (amended): the routed dispatcher (views.py) strips the query
and rejects every empty or whitespace-only query with the invalid-query
error, never invoking the retrieval chain; copy.py's variant rejects only
the exactly-empty query (whitespace-only queries are forwarded to the
chain when it is initialized). -/
theorem c2_empty_query_rejected :
    (∀ (env : Env) (st : St) (req : Req), req.isPost = true → req.action = "query" →
      pyStrip req.query = "" →
      (rag_view env st req).1.response = none ∧
      (rag_view env st req).1.error = some invalidQueryMsg ∧
      ((rag_view env st req).2).chainCalls = st.chainCalls) ∧
    (∀ (env : Env) (cst : CSt) (req : Req), req.isPost = true → req.action = "query" →
      req.query = "" →
      (copy_rag_view env cst req).1.response = none ∧
      (copy_rag_view env cst req).1.error = some copyInvalidMsg ∧
      ((copy_rag_view env cst req).2).chainCalls = cst.chainCalls) := by
  constructor
  · intro env st req hpost hact hq
    cases hch : st.rag_chain with
    | some c =>
      simp [rag_view, hpost, hact, hq, hch]
    | none =>
      cases hc2 : ((init_rag env st).2).rag_chain with
      | some c =>
        simp [rag_view, hpost, hact, hq, hch, hc2, init_preserves env st]
      | none =>
        simp [rag_view, hpost, hact, hq, hch, hc2, init_preserves env st]
  · intro env cst req hpost hact hq
    cases hch : cst.rag_chain with
    | some c =>
      simp [copy_rag_view, hpost, hact, hq, hch]
    | none =>
      cases hc2 : (copy_init_rag env cst).rag_chain with
      | some c =>
        simp [copy_rag_view, hpost, hact, hq, hch, hc2, copy_init_chainCalls env cst]
      | none =>
        simp [copy_rag_view, hpost, hact, hq, hch, hc2, copy_init_chainCalls env cst]

theorem c2_empty_query_rejected_witness :
    (rag_view env0 stWithChain ⟨true, "query", "   "⟩).1.error = some invalidQueryMsg ∧
    (copy_rag_view env0 cst0 ⟨true, "query", ""⟩).1.error = some copyInvalidMsg :=
  ⟨(c2_empty_query_rejected.1 env0 stWithChain ⟨true, "query", "   "⟩ rfl rfl
      (by decide)).2.1,
   (c2_empty_query_rejected.2 env0 cst0 ⟨true, "query", ""⟩ rfl rfl rfl).2.1⟩

def docX : Doc := ⟨"x", [("source", .s "products"), ("id", .n 1)]⟩

def docY : Doc := ⟨"y", [("source", .s "reviews"), ("id", .n 2)]⟩

def stX : St := ⟨some ⟨[docX], 8⟩, none, rng0, 0, 0⟩

def stY : St := ⟨some ⟨[docY], 8⟩, none, rng0, 0, 0⟩

/-- Claim C6, as stated, is false: the answer operation does NOT return the
provenance.  Two runs of the routed dispatcher whose retrieval chains
return the same answer text but different chunks — hence different
`(source, id)` provenance — render byte-identical outputs, so the returned
value cannot contain the provenance; the provenance list is computed only
by copy.py's dead local and discarded. -/
theorem c6_counterexample :
    (rag_view env0 stX ⟨true, "query", "q"⟩).1
      = (rag_view env0 stY ⟨true, "query", "q"⟩).1 ∧
    runChain env0 ⟨[docX], 8⟩ "q" = .ok ⟨"A", [docX]⟩ ∧
    runChain env0 ⟨[docY], 8⟩ "q" = .ok ⟨"A", [docY]⟩ ∧
    copySources ⟨"A", [docX]⟩ ≠ copySources ⟨"A", [docY]⟩ := by
  refine ⟨rfl, rfl, rfl, by decide⟩

/-- Claim C6 (amended): for a non-empty query against an initialized chain
whose invocation succeeds, the routed dispatcher returns the collaborator's
answer text verbatim (and no error); the `(source, id)` provenance pairs of
the retrieved chunks, in retrieval order and of length at most the
configured `k`, are computed by copy.py's query branch but are not part of
the returned output. -/
theorem c6_answer_verbatim :
    (∀ (env : Env) (st : St) (req : Req) (c : Chain) (res : ChainResult),
      st.rag_chain = some c → req.isPost = true → req.action = "query" →
      pyStrip req.query ≠ "" → runChain env c (pyStrip req.query) = .ok res →
      (rag_view env st req).1.response = some res.answer ∧
      (rag_view env st req).1.error = none) ∧
    (∀ (env : Env) (c : Chain) (q : String) (res : ChainResult),
      runChain env c q = .ok res →
      res.context.length ≤ c.k ∧
      copySources res = res.context.map
        (fun d => (metaGet d "source" (.s "Unknown"), metaGet d "id" (.s "N/A"))) ∧
      (copySources res).length ≤ c.k) := by
  constructor
  · intro env st req c res hch hpost hact hq hrun
    simp [rag_view, hch, hpost, hact, hq, hrun]
  · intro env c q res hrun
    unfold runChain at hrun
    cases hl : env.llm q with
    | error e =>
      rw [hl] at hrun
      simp at hrun
    | ok a =>
      rw [hl] at hrun
      injection hrun with h
      subst h
      refine ⟨?_, rfl, ?_⟩
      · rw [List.length_take]
        exact min_le_left _ _
      · simp only [copySources, List.length_map, List.length_take]
        exact min_le_left _ _

theorem c6_answer_verbatim_witness :
    (rag_view env0 stX ⟨true, "query", "q"⟩).1.response = some "A" ∧
    copySources ⟨"A", [docX]⟩ = [docX].map
      (fun d => (metaGet d "source" (.s "Unknown"), metaGet d "id" (.s "N/A"))) ∧
    (copySources ⟨"A", [docX]⟩).length ≤ 8 :=
  ⟨(c6_answer_verbatim.1 env0 stX ⟨true, "query", "q"⟩ ⟨[docX], 8⟩ ⟨"A", [docX]⟩
      rfl rfl rfl (by decide) rfl).1,
   (c6_answer_verbatim.2 env0 ⟨[docX], 8⟩ "q" ⟨"A", [docX]⟩ rfl).2.1,
   (c6_answer_verbatim.2 env0 ⟨[docX], 8⟩ "q" ⟨"A", [docX]⟩ rfl).2.2⟩
